import Mathlib

/-!
Shallow embedding of PyCraftLauncher's `launcher.py` (the acquisition-and-launch
pipeline).  Pure values model the JSON documents; the filesystem is a list of
present paths threaded through the download functions; network fetches are
modelled by recording the (url, destination) pairs actually fetched.
-/

namespace PyCraftLauncher

/-- Constants from launcher.py lines 11-17 (Path values rendered as strings). -/
def BASE_DIR : String := "minecraft"

/-- launcher.py line 12: `LIBRARIES_DIR = BASE_DIR / "libraries"`. -/
def LIBRARIES_DIR : String := BASE_DIR ++ "/libraries"

/-- launcher.py line 13: `ASSETS_DIR = BASE_DIR / "assets"`. -/
def ASSETS_DIR : String := BASE_DIR ++ "/assets"

/-- launcher.py line 14: `NATIVES_DIR = BASE_DIR / "natives"`. -/
def NATIVES_DIR : String := BASE_DIR ++ "/natives"

/-- launcher.py line 15: `JAVA_PATH = "java"`. -/
def JAVA_PATH : String := "java"

/-- launcher.py line 16: `GAME_DIR = BASE_DIR`. -/
def GAME_DIR : String := BASE_DIR

/-- The value of `os.pathsep`, the platform's path-list separator
(":" on POSIX). -/
def pathsep : String := ":"

/-- An artifact entry of the version metadata: `{url, path}`. -/
structure Artifact where
  url : String
  path : String
deriving DecidableEq

/-- A library's `downloads` object: an optional `artifact` and the
`classifiers` mapping from platform key to artifact (JSON object modelled as
an association list in document order). -/
structure LibraryDownloads where
  artifact : Option Artifact
  classifiers : List (String × Artifact)
deriving DecidableEq

/-- One element of the metadata's `libraries` array; the `downloads` key may
be absent (launcher.py line 126 guards on `"downloads" in lib`). -/
structure Library where
  downloads : Option LibraryDownloads
deriving DecidableEq

/-- The metadata's `assetIndex` object: `{id, url}`. -/
structure AssetIndexInfo where
  id : String
  url : String
deriving DecidableEq

/-- The version metadata document, with the fields launcher.py reads:
`id`, `downloads.client.url` (flattened to `clientUrl`), `libraries`,
`assetIndex` (optional, line 139 uses `.get`), `mainClass`. -/
structure VersionData where
  id : String
  clientUrl : String
  libraries : List Library
  assetIndex : Option AssetIndexInfo
  mainClass : String
deriving DecidableEq

/-- One entry of the asset index's `objects` mapping: `{hash}`. -/
structure AssetObject where
  hash : String
deriving DecidableEq

/-- Documents written with `json.dump`: the version metadata (line 122) and
the fetched asset index (line 153).  Recording the document value written
captures that persistence is verbatim. -/
inductive WriteDoc where
  | versionMeta (vd : VersionData)
  | assetIndexDoc (objs : List (String × AssetObject))
deriving DecidableEq

/-- The observable state threaded through the download stages: the set of
paths present on disk, the (url, destination) pairs actually fetched over
the network, and the `json.dump` writes performed (path and document). -/
structure FsState where
  fs : List String
  downloads : List (String × String)
  writes : List (String × WriteDoc)
deriving DecidableEq

/-- launcher.py lines 20-30, `download_file(url, dest)`: if `dest` exists the
call is a skip (no fetch, no write); otherwise the file is fetched and
created at `dest`. -/
def download_file (st : FsState) (url dest : String) : FsState :=
  if dest ∈ st.fs then st
  else { st with fs := dest :: st.fs, downloads := st.downloads ++ [(url, dest)] }

/-- A `json.dump` to `path`: performed unconditionally (no existence check in
the source), creating the file if absent. -/
def write_doc (st : FsState) (path : String) (doc : WriteDoc) : FsState :=
  { st with
    fs := if path ∈ st.fs then st.fs else path :: st.fs,
    writes := st.writes ++ [(path, doc)] }

/-- launcher.py lines 108-110, `get_native_for_os(classifiers)`: look up the
key `natives-<os>` in the classifiers mapping; `dict.get` yields `None` when
the key is absent.  `osName` stands for `platform.system().lower()`. -/
def get_native_for_os (osName : String) (classifiers : List (String × Artifact)) :
    Option Artifact :=
  classifiers.lookup ("natives-" ++ osName)

/-- Path `BASE_DIR / "versions" / version_id` (launcher.py line 114). -/
def version_dir (versionId : String) : String :=
  BASE_DIR ++ "/versions/" ++ versionId

/-- The client binary's path `versions/<id>/<id>.jar` (line 118). -/
def client_jar_path (versionId : String) : String :=
  version_dir versionId ++ "/" ++ versionId ++ ".jar"

/-- The versioned metadata path `versions/<id>/<id>.json` (line 121). -/
def version_json_path (versionId : String) : String :=
  version_dir versionId ++ "/" ++ versionId ++ ".json"

/-- Destination `LIBRARIES_DIR / artifact["path"]` (lines 129 and 135). -/
def lib_artifact_dest (a : Artifact) : String :=
  LIBRARIES_DIR ++ "/" ++ a.path

/-- Body of the loop at launcher.py lines 125-136: when the library has a
`downloads` key, fetch its `artifact` (if declared), then look up the native
classifier for the active platform and fetch it only when the lookup
succeeds (`if native:`); a failed lookup is silently skipped. -/
def process_library (osName : String) (st : FsState) (lib : Library) : FsState :=
  match lib.downloads with
  | none => st
  | some d =>
    let st1 := match d.artifact with
      | none => st
      | some a => download_file st a.url (lib_artifact_dest a)
    match get_native_for_os osName d.classifiers with
    | none => st1
    | some n => download_file st1 n.url (lib_artifact_dest n)

/-- launcher.py lines 112-136, `download_client_and_libraries(version_data)`:
download the client jar, persist the metadata document unconditionally to
its versioned path, then process every library in metadata order. -/
def download_client_and_libraries (osName : String) (vd : VersionData)
    (st : FsState) : FsState :=
  let st1 := download_file st vd.clientUrl (client_jar_path vd.id)
  let st2 := write_doc st1 (version_json_path vd.id) (.versionMeta vd)
  vd.libraries.foldl (process_library osName) st2

/-- The first two hex characters of an asset hash (line 158, `hash_val[:2]`). -/
def asset_subdir (h : String) : String := h.take 2

/-- The asset object's source URL (line 159). -/
def asset_url (h : String) : String :=
  "https://resources.download.minecraft.net/" ++ asset_subdir h ++ "/" ++ h

/-- The content-addressed destination `assets/objects/<2-hex>/<hash>`
(line 160). -/
def asset_target (h : String) : String :=
  ASSETS_DIR ++ "/objects/" ++ asset_subdir h ++ "/" ++ h

/-- Path `assets/indexes/<assetIndexId>.json` (line 144). -/
def asset_index_path (indexId : String) : String :=
  ASSETS_DIR ++ "/indexes/" ++ indexId ++ ".json"

/-- Body of the loop at launcher.py lines 156-165: compute the
content-addressed target; if it exists, skip, otherwise call
`download_file` (which rechecks existence). -/
def process_asset (st : FsState) (entry : String × AssetObject) : FsState :=
  let h := entry.2.hash
  if asset_target h ∈ st.fs then st
  else download_file st (asset_url h) (asset_target h)

/-- launcher.py lines 138-166, `download_assets(version_data)`: when the
metadata has no `assetIndex` the function prints a diagnostic and returns
(state unchanged); otherwise it fetches the asset index document
(`objs` stands for the fetched `objects` mapping in document order),
persists it unconditionally, then processes every entry. -/
def download_assets (vd : VersionData) (objs : List (String × AssetObject))
    (st : FsState) : FsState :=
  match vd.assetIndex with
  | none => st
  | some info =>
    let st1 := write_doc st (asset_index_path info.id) (.assetIndexDoc objs)
    objs.foldl process_asset st1

/-- What opening a native bundle with `zipfile.ZipFile` yields in
launcher.py lines 176-179: either a readable archive with its entry names,
or `zipfile.BadZipFile` (the one exception the `except` clause catches). -/
inductive BundleRead where
  | entries (names : List String)
  | badZip
deriving DecidableEq

/-- The outcome of `extract_natives`: the entry names extracted into
`NATIVES_DIR` in order, and the warnings printed. -/
structure ExtractResult where
  extracted : List String
  warnings : List String
deriving DecidableEq

/-- The `classifiers` lookup of launcher.py line 171:
`lib.get("downloads", {}).get("classifiers", {})`. -/
def lib_classifiers (lib : Library) : List (String × Artifact) :=
  match lib.downloads with
  | none => []
  | some d => d.classifiers

/-- Body of the loop at launcher.py lines 170-179: when the library's
classifier set has a native for the active platform, open the bundle at its
library path; a readable archive has all entries extracted, a bad archive
produces a warning (the `except zipfile.BadZipFile` clause) and the loop
continues. -/
def extract_step (osName : String) (readZip : String → BundleRead)
    (r : ExtractResult) (lib : Library) : ExtractResult :=
  match get_native_for_os osName (lib_classifiers lib) with
  | none => r
  | some n =>
    match readZip (lib_artifact_dest n) with
    | .entries es => { r with extracted := r.extracted ++ es }
    | .badZip =>
      { r with warnings :=
          r.warnings ++ ["Warning: Bad ZIP file for " ++ lib_artifact_dest n] }

/-- launcher.py lines 168-179, `extract_natives(version_data)`: run the
extraction loop over every library.  `readZip` models what opening each
bundle path with `zipfile.ZipFile` yields. -/
def extract_natives (osName : String) (readZip : String → BundleRead)
    (vd : VersionData) : ExtractResult :=
  vd.libraries.foldl (extract_step osName readZip) ⟨[], []⟩

/-- Body of the loop at launcher.py lines 183-187: append the resolved
artifact path of a library that declares `downloads.artifact`. -/
def classpath_step (acc : List String) (lib : Library) : List String :=
  match lib.downloads with
  | none => acc
  | some d =>
    match d.artifact with
    | none => acc
    | some a => acc ++ [lib_artifact_dest a]

/-- launcher.py lines 181-191, `build_classpath(version_data)`: collect the
library-artifact paths in metadata order (only libraries with
`downloads.artifact`), append the client jar path last, join with
`os.pathsep`.  No existence check and no deduplication occur; the result
depends only on the metadata and the fixed directory constants. -/
def build_classpath (vd : VersionData) : String :=
  let libs := vd.libraries.foldl classpath_step []
  String.intercalate pathsep (libs ++ [client_jar_path vd.id])

/-- launcher.py lines 193-212: the argument vector handed to
`subprocess.run`, or `none` when line 195's
`version_data["assetIndex"]["id"]` raises `KeyError` (metadata without an
asset index), which happens before any process is spawned. -/
def launch_args (vd : VersionData) (username xmx xms : String) :
    Option (List String) :=
  match vd.assetIndex with
  | none => none
  | some ai =>
    some [JAVA_PATH,
      "-Xmx" ++ xmx,
      "-Xms" ++ xms,
      "-Djava.library.path=" ++ NATIVES_DIR,
      "-cp", build_classpath vd,
      vd.mainClass,
      "--username", username,
      "--version", vd.id,
      "--gameDir", GAME_DIR,
      "--assetsDir", ASSETS_DIR,
      "--assetIndex", ai.id,
      "--accessToken", "0",
      "--uuid", "0"]

/-- The value `subprocess.run` returns: a CompletedProcess carrying the
child's exit status (obtained because the call blocks until the child
terminates). -/
structure CompletedProcess where
  returncode : Int
deriving DecidableEq

/-- Model of `subprocess.run(args)`, with the child runtime as an oracle from
argument vector to exit status: the call yields the child's exit status for
the given arguments. -/
def subprocess_run (child : List String → Int) (args : List String) :
    CompletedProcess :=
  ⟨child args⟩

/-- launcher.py lines 193-215, `launch_minecraft(...)`: build the argument
vector (raising `KeyError`, modelled as `none`, when `assetIndex` is
absent), run the child synchronously, discard the returned CompletedProcess
(line 215 ignores `subprocess.run`'s value) and return `None`
(modelled as `some ()`). -/
def launch_minecraft (vd : VersionData) (username xmx xms : String)
    (child : List String → Int) : Option Unit :=
  match launch_args vd username xmx xms with
  | none => none
  | some args =>
    let _ := subprocess_run child args
    some ()

/-- The launcher process's own exit status for a run that reaches the launch
stage: `main` (lines 245-250) never reads the child's exit status, calls
`save_settings` and returns, so the interpreter exits 0; an uncaught
`KeyError` (missing `assetIndex`) terminates the interpreter with status 1. -/
def launcher_exit_status (vd : VersionData) (username xmx xms : String)
    (child : List String → Int) : Int :=
  match launch_minecraft vd username xmx xms child with
  | none => 1
  | some _ => 0

/-- The steps of `main` (launcher.py lines 218-250) in statement order. -/
inductive MainEvent where
  | loadSettings
  | resolveVersion
  | promptUser
  | downloadClientLibs
  | downloadAssets
  | extractNatives
  | launch
  | saveSettings
deriving DecidableEq, BEq

/-- The order in which `main` performs its stages: `load_settings`
(line 219), version resolution (lines 225-237), the username and memory
prompts (lines 239-243), `download_client_and_libraries` (line 245),
`download_assets` (line 246), `extract_natives` (line 247),
`launch_minecraft` (line 248), and finally `save_settings` (line 250). -/
def main_events : List MainEvent :=
  [.loadSettings, .resolveVersion, .promptUser, .downloadClientLibs,
   .downloadAssets, .extractNatives, .launch, .saveSettings]

/-- The destinations a single library's processing can fetch to: its artifact
path and its matching native path, when declared. -/
def lib_targets (osName : String) (lib : Library) : List String :=
  match lib.downloads with
  | none => []
  | some d =>
    (match d.artifact with
     | none => []
     | some a => [lib_artifact_dest a]) ++
    (match get_native_for_os osName d.classifiers with
     | none => []
     | some n => [lib_artifact_dest n])

/-- All destinations of the client-and-libraries stage: the client jar, then
per library its artifact path and matching native path. -/
def plan_targets (osName : String) (vd : VersionData) : List String :=
  client_jar_path vd.id :: vd.libraries.flatMap (lib_targets osName)

/-- The content-addressed destinations of the asset stage. -/
def asset_targets (objs : List (String × AssetObject)) : List String :=
  objs.map (fun e => asset_target e.2.hash)

/-- The native bundle paths `extract_natives` opens, in library order. -/
def native_paths (osName : String) (libs : List Library) : List String :=
  libs.filterMap (fun lib =>
    (get_native_for_os osName (lib_classifiers lib)).map lib_artifact_dest)

/-- The invariant the fetch-task dedup argument rests on: every destination
already fetched to is present on disk, and no destination was fetched
twice. -/
def dedup_inv (st : FsState) : Prop :=
  (∀ p ∈ st.downloads.map Prod.snd, p ∈ st.fs) ∧
  (st.downloads.map Prod.snd).Nodup

/-- The entries extracted across all readable bundles, in order. -/
def good_entries (readZip : String → BundleRead) (paths : List String) :
    List String :=
  paths.flatMap (fun p =>
    match readZip p with
    | .entries es => es
    | .badZip => [])

/-- One warning per bad bundle, in order. -/
def bad_warnings (readZip : String → BundleRead) (paths : List String) :
    List String :=
  paths.filterMap (fun p =>
    match readZip p with
    | .entries _ => none
    | .badZip => some ("Warning: Bad ZIP file for " ++ p))

/-- The classpath entries as the spec describes them: every library
artifact's resolved path in metadata order, then the client jar last. -/
def classpath_entries (vd : VersionData) : List String :=
  vd.libraries.filterMap
    (fun lib => (lib.downloads.bind (fun d => d.artifact)).map lib_artifact_dest)
    ++ [client_jar_path vd.id]

/-! Helper lemmas about the loop bodies. -/

theorem classpath_foldl (libs : List Library) (acc : List String) :
    libs.foldl classpath_step acc =
      acc ++ libs.filterMap
        (fun lib => (lib.downloads.bind (fun d => d.artifact)).map lib_artifact_dest) := by
  induction libs generalizing acc with
  | nil => simp
  | cons l ls ih =>
    match h : l.downloads with
    | none => simp [classpath_step, h, ih]
    | some d =>
      match h2 : d.artifact with
      | none => simp [classpath_step, h, h2, ih]
      | some a => simp [classpath_step, h, h2, ih]

theorem extract_foldl (osName : String) (readZip : String → BundleRead)
    (libs : List Library) (r : ExtractResult) :
    libs.foldl (extract_step osName readZip) r =
      ⟨r.extracted ++ good_entries readZip (native_paths osName libs),
       r.warnings ++ bad_warnings readZip (native_paths osName libs)⟩ := by
  induction libs generalizing r with
  | nil => simp [native_paths, good_entries, bad_warnings]
  | cons l ls ih =>
    match h : get_native_for_os osName (lib_classifiers l) with
    | none =>
      simp [extract_step, h, ih, native_paths, good_entries, bad_warnings]
    | some n =>
      match h2 : readZip (lib_artifact_dest n) with
      | .entries es =>
        simp [extract_step, h, h2, ih, native_paths, good_entries, bad_warnings]
      | .badZip =>
        simp [extract_step, h, h2, ih, native_paths, good_entries, bad_warnings]

/-- C3: the built classpath is every library artifact's resolved path in
exactly the metadata's library order (only libraries declaring an
artifact), followed by the client jar path last, joined with the
platform's path-list separator — `classpath_entries` is that ordered list
written directly from the specification, with no deduplication and no
filesystem consultation, so the classpath is a pure function of the
metadata and the fixed directory layout. -/
theorem build_classpath_spec (vd : VersionData) :
    build_classpath vd = String.intercalate pathsep (classpath_entries vd) := by
  unfold build_classpath classpath_entries
  rw [classpath_foldl]
  simp

/-- C8: extraction never aborts: for every metadata and every outcome of
opening the native bundles, `extract_natives` returns normally with exactly
the entries of the readable bundles extracted (in order, so a corrupt
bundle does not stop extraction of the remaining ones) and one recorded
warning per corrupt bundle. -/
theorem extract_natives_tolerates_bad_bundles (osName : String)
    (readZip : String → BundleRead) (vd : VersionData) :
    extract_natives osName readZip vd =
      ⟨good_entries readZip (native_paths osName vd.libraries),
       bad_warnings readZip (native_paths osName vd.libraries)⟩ := by
  unfold extract_natives
  rw [extract_foldl]
  simp

/-- C9: for every launch whose metadata carries an asset index, the argument
vector has exactly the order: heap-max flag, heap-min flag,
native-library-search-path flag, classpath flag, main entry point, then
`--username`, `--version`, `--gameDir`, `--assetsDir`, `--assetIndex`, and
the fixed offline placeholders `--accessToken 0` and `--uuid 0`, whose
values are the literal string "0" independent of every input. -/
theorem launch_args_order (vd : VersionData) (ai : AssetIndexInfo)
    (username xmx xms : String) (h : vd.assetIndex = some ai) :
    launch_args vd username xmx xms =
      some [JAVA_PATH,
        "-Xmx" ++ xmx,
        "-Xms" ++ xms,
        "-Djava.library.path=" ++ NATIVES_DIR,
        "-cp", build_classpath vd,
        vd.mainClass,
        "--username", username,
        "--version", vd.id,
        "--gameDir", GAME_DIR,
        "--assetsDir", ASSETS_DIR,
        "--assetIndex", ai.id,
        "--accessToken", "0",
        "--uuid", "0"] := by
  simp [launch_args, h]

/-- Witness for `launch_args_order` at a concrete metadata. -/
theorem launch_args_order_witness :
    (VersionData.mk "1.20" "http://c" [] (some ⟨"17", "http://ai"⟩) "Main").assetIndex
      = some ⟨"17", "http://ai"⟩ ∧
    launch_args (VersionData.mk "1.20" "http://c" [] (some ⟨"17", "http://ai"⟩) "Main")
        "Steve" "2G" "512M" =
      some [JAVA_PATH,
        "-Xmx" ++ "2G",
        "-Xms" ++ "512M",
        "-Djava.library.path=" ++ NATIVES_DIR,
        "-cp", build_classpath (VersionData.mk "1.20" "http://c" []
          (some ⟨"17", "http://ai"⟩) "Main"),
        (VersionData.mk "1.20" "http://c" [] (some ⟨"17", "http://ai"⟩) "Main").mainClass,
        "--username", "Steve",
        "--version", (VersionData.mk "1.20" "http://c" [] (some ⟨"17", "http://ai"⟩) "Main").id,
        "--gameDir", GAME_DIR,
        "--assetsDir", ASSETS_DIR,
        "--assetIndex", (AssetIndexInfo.mk "17" "http://ai").id,
        "--accessToken", "0",
        "--uuid", "0"] :=
  ⟨rfl, launch_args_order _ _ "Steve" "2G" "512M" rfl⟩

/-- C10: for every metadata lacking an `assetIndex`, the asset stage returns
normally with the state unchanged (only a diagnostic is printed), while the
launch stage hits the `KeyError` on `version_data["assetIndex"]["id"]`
before any argument vector is built and before any process is spawned:
`launch_args` is `none` and `launch_minecraft` propagates the error for
every child runtime. -/
theorem missing_asset_index_tolerated_then_fatal (vd : VersionData)
    (objs : List (String × AssetObject)) (st : FsState)
    (username xmx xms : String) (child : List String → Int)
    (h : vd.assetIndex = none) :
    download_assets vd objs st = st ∧
    launch_args vd username xmx xms = none ∧
    launch_minecraft vd username xmx xms child = none := by
  refine ⟨?_, ?_, ?_⟩ <;>
    simp [download_assets, launch_args, launch_minecraft, h]

/-- Witness for `missing_asset_index_tolerated_then_fatal` at a concrete
metadata without an asset index. -/
theorem missing_asset_index_tolerated_then_fatal_witness :
    (VersionData.mk "1.0" "http://c" [] none "Main").assetIndex = none ∧
    (download_assets (VersionData.mk "1.0" "http://c" [] none "Main")
        [("stone", ⟨"abcd1234ef"⟩)] ⟨[], [], []⟩ = ⟨[], [], []⟩ ∧
      launch_args (VersionData.mk "1.0" "http://c" [] none "Main") "Steve" "2G" "512M" = none ∧
      launch_minecraft (VersionData.mk "1.0" "http://c" [] none "Main")
        "Steve" "2G" "512M" (fun _ => 7) = none) :=
  ⟨rfl, missing_asset_index_tolerated_then_fatal _ _ _ "Steve" "2G" "512M" (fun _ => 7) rfl⟩

/-- C2 counterexample: a concrete run whose child runtime exits with status 3
on every argument vector, yet the launcher's own outcome is not 3 — the
child's exit status is not propagated (line 215 discards the value of
`subprocess.run`; `main` then returns, so the interpreter exits 0). -/
theorem child_exit_status_not_propagated :
    ¬ (launcher_exit_status
        (VersionData.mk "1.0" "http://c" [] (some ⟨"1", "http://ai"⟩) "Main")
        "Player" "2G" "512M" (fun _ => 3) = 3) := by
  decide

/-- C2 (amended): for every metadata with an asset index, the launcher spawns
the runtime synchronously and blocks until it terminates, but discards the
child's exit status: `launch_minecraft` returns `None` and the launcher
process's own exit status is 0 regardless of the child's exit status. -/
theorem launch_discards_child_exit_status (vd : VersionData)
    (ai : AssetIndexInfo) (username xmx xms : String)
    (child : List String → Int) (h : vd.assetIndex = some ai) :
    launch_minecraft vd username xmx xms child = some () ∧
    launcher_exit_status vd username xmx xms child = 0 := by
  refine ⟨?_, ?_⟩ <;>
    simp [launcher_exit_status, launch_minecraft, launch_args, h]

/-- Witness for `launch_discards_child_exit_status` with a child exiting 3. -/
theorem launch_discards_child_exit_status_witness :
    (VersionData.mk "1.0" "http://c" [] (some ⟨"1", "http://ai"⟩) "Main").assetIndex
      = some ⟨"1", "http://ai"⟩ ∧
    (launch_minecraft (VersionData.mk "1.0" "http://c" [] (some ⟨"1", "http://ai"⟩) "Main")
        "Player" "2G" "512M" (fun _ => 3) = some () ∧
      launcher_exit_status (VersionData.mk "1.0" "http://c" [] (some ⟨"1", "http://ai"⟩) "Main")
        "Player" "2G" "512M" (fun _ => 3) = 0) :=
  ⟨rfl, launch_discards_child_exit_status _ _ "Player" "2G" "512M" (fun _ => 3) rfl⟩

/-- C6 counterexample: the settings are not written before the later pipeline
stages complete — in `main`'s stage order, `save_settings` does not precede
`extract_natives` (nor the launch). -/
theorem settings_not_saved_before_extraction :
    ¬ (main_events.indexOf MainEvent.saveSettings
        < main_events.indexOf MainEvent.extractNatives) := by
  decide

/-- C6 (amended): the settings store is consulted before version resolution,
and the persisted settings are written only at the very end of `main`:
after the download stage, after extraction, and after the launch stage has
completed — `save_settings` is the last stage. -/
theorem settings_consulted_first_saved_last :
    main_events.indexOf MainEvent.loadSettings
      < main_events.indexOf MainEvent.resolveVersion ∧
    main_events.indexOf MainEvent.downloadClientLibs
      < main_events.indexOf MainEvent.saveSettings ∧
    main_events.indexOf MainEvent.launch
      < main_events.indexOf MainEvent.saveSettings ∧
    main_events.getLast? = some MainEvent.saveSettings := by
  decide

/-- C1 counterexample: planning on a metadata whose single library declares
only a Windows native classifier, on a Linux platform, does not fail at
all: the run completes normally (the source raises nothing on this path —
`classifiers.get` yields `None` and the `if native:` branch is skipped) and
the resulting state holds exactly the client-jar fetch and the metadata
write, with no task and no error for the unmatched library. -/
theorem native_mismatch_planning_completes_normally :
    download_client_and_libraries "linux"
      (VersionData.mk "1.0" "http://client"
        [⟨some ⟨none, [("natives-windows", ⟨"http://n", "n.jar"⟩)]⟩⟩] none "Main")
      ⟨[], [], []⟩ =
    ⟨[version_json_path "1.0", client_jar_path "1.0"],
     [("http://client", client_jar_path "1.0")],
     [(version_json_path "1.0",
       WriteDoc.versionMeta (VersionData.mk "1.0" "http://client"
         [⟨some ⟨none, [("natives-windows", ⟨"http://n", "n.jar"⟩)]⟩⟩] none "Main"))]⟩ := by
  decide

/-- C1 (amended): for every library whose declared native classifiers have no
mapping for the active platform key, download planning silently skips the
native entry — processing the library performs exactly its plain-artifact
handling (so the state is unchanged when no artifact is declared) and no
exception of any kind is raised, no task emitted for the natives; a library
declaring no natives at all is the empty-classifier-set instance of the
same statement, so it is not an error either. -/
theorem unmatched_native_classifier_skipped (osName : String) (st : FsState)
    (lib : Library) (d : LibraryDownloads) (h1 : lib.downloads = some d)
    (h3 : get_native_for_os osName d.classifiers = none) :
    process_library osName st lib =
      (match d.artifact with
       | none => st
       | some a => download_file st a.url (lib_artifact_dest a)) := by
  match h2 : d.artifact with
  | none => simp [process_library, h1, h2, h3]
  | some a => simp [process_library, h1, h2, h3]

/-- Witness for `unmatched_native_classifier_skipped`: a library declaring
both a plain artifact and a Windows-only classifier set, planned on a Linux
platform — only the plain artifact is handled. -/
theorem unmatched_native_classifier_skipped_witness :
    (Library.mk (some ⟨some ⟨"http://a", "a.jar"⟩,
        [("natives-windows", ⟨"http://n", "n.jar"⟩)]⟩)).downloads
      = some ⟨some ⟨"http://a", "a.jar"⟩, [("natives-windows", ⟨"http://n", "n.jar"⟩)]⟩ ∧
    get_native_for_os "linux" [("natives-windows", ⟨"http://n", "n.jar"⟩)] = none ∧
    process_library "linux" ⟨[], [], []⟩
      (Library.mk (some ⟨some ⟨"http://a", "a.jar"⟩,
        [("natives-windows", ⟨"http://n", "n.jar"⟩)]⟩)) =
      download_file ⟨[], [], []⟩ "http://a" (lib_artifact_dest ⟨"http://a", "a.jar"⟩) :=
  ⟨rfl, by decide,
    unmatched_native_classifier_skipped "linux" ⟨[], [], []⟩ _ _ rfl (by decide)⟩

theorem download_file_writes (st : FsState) (url dest : String) :
    (download_file st url dest).writes = st.writes := by
  unfold download_file
  split <;> rfl

theorem download_file_downloads_of_mem (st : FsState) (url dest : String)
    (h : dest ∈ st.fs) : download_file st url dest = st := by
  simp [download_file, h]

theorem process_library_writes (osName : String) (st : FsState) (lib : Library) :
    (process_library osName st lib).writes = st.writes := by
  match h : lib.downloads with
  | none => simp [process_library, h]
  | some d =>
    match h2 : d.artifact with
    | none =>
      match h3 : get_native_for_os osName d.classifiers with
      | none => simp [process_library, h, h2, h3]
      | some n => simp [process_library, h, h2, h3, download_file_writes]
    | some a =>
      match h3 : get_native_for_os osName d.classifiers with
      | none => simp [process_library, h, h2, h3, download_file_writes]
      | some n => simp [process_library, h, h2, h3, download_file_writes]

theorem foldl_library_writes (osName : String) (libs : List Library) (st : FsState) :
    (libs.foldl (process_library osName) st).writes = st.writes := by
  induction libs generalizing st with
  | nil => rfl
  | cons l ls ih => rw [List.foldl_cons, ih, process_library_writes]

theorem write_doc_writes (st : FsState) (path : String) (doc : WriteDoc) :
    (write_doc st path doc).writes = st.writes ++ [(path, doc)] := rfl

theorem write_doc_downloads (st : FsState) (path : String) (doc : WriteDoc) :
    (write_doc st path doc).downloads = st.downloads := rfl

theorem process_asset_writes (st : FsState) (e : String × AssetObject) :
    (process_asset st e).writes = st.writes := by
  unfold process_asset
  dsimp only
  split
  · rfl
  · exact download_file_writes _ _ _

theorem foldl_asset_writes (objs : List (String × AssetObject)) (st : FsState) :
    (objs.foldl process_asset st).writes = st.writes := by
  induction objs generalizing st with
  | nil => rfl
  | cons e es ih => rw [List.foldl_cons, ih, process_asset_writes]

/-- C7: for every starting filesystem state — in particular one where the
file is already present — the client-and-libraries stage appends exactly
one unconditional write of the metadata document (the very document value,
i.e. verbatim) to its versioned path, and the asset stage appends exactly
one unconditional write of the fetched asset index document to its
versioned path. -/
theorem documents_persisted_unconditionally (osName : String)
    (vd : VersionData) (ai : AssetIndexInfo) (objs : List (String × AssetObject))
    (st st' : FsState) (h : vd.assetIndex = some ai) :
    (download_client_and_libraries osName vd st).writes =
      st.writes ++ [(version_json_path vd.id, WriteDoc.versionMeta vd)] ∧
    (download_assets vd objs st').writes =
      st'.writes ++ [(asset_index_path ai.id, WriteDoc.assetIndexDoc objs)] := by
  constructor
  · unfold download_client_and_libraries
    rw [foldl_library_writes, write_doc_writes, download_file_writes]
  · simp only [download_assets, h]
    rw [foldl_asset_writes, write_doc_writes]

/-- Witness for `documents_persisted_unconditionally` on states that already
contain the destination files. -/
theorem documents_persisted_unconditionally_witness :
    (VersionData.mk "1.0" "http://c" [] (some ⟨"idx", "http://u"⟩) "Main").assetIndex
      = some ⟨"idx", "http://u"⟩ ∧
    ((download_client_and_libraries "linux"
        (VersionData.mk "1.0" "http://c" [] (some ⟨"idx", "http://u"⟩) "Main")
        ⟨[version_json_path "1.0"], [], []⟩).writes =
      (FsState.mk [version_json_path "1.0"] [] []).writes ++
        [(version_json_path "1.0",
          WriteDoc.versionMeta (VersionData.mk "1.0" "http://c" []
            (some ⟨"idx", "http://u"⟩) "Main"))] ∧
     (download_assets (VersionData.mk "1.0" "http://c" [] (some ⟨"idx", "http://u"⟩) "Main")
        [("stone", ⟨"abcd1234ef"⟩)] ⟨[asset_index_path "idx"], [], []⟩).writes =
      (FsState.mk [asset_index_path "idx"] [] []).writes ++
        [(asset_index_path "idx", WriteDoc.assetIndexDoc [("stone", ⟨"abcd1234ef"⟩)])]) :=
  ⟨rfl, documents_persisted_unconditionally "linux" _ _ _ _ _ rfl⟩

theorem download_file_fs_mono (st : FsState) (url dest : String) {p : String}
    (h : p ∈ st.fs) : p ∈ (download_file st url dest).fs := by
  unfold download_file
  split
  · exact h
  · exact List.mem_cons_of_mem _ h

theorem write_doc_fs_mono (st : FsState) (path : String) (doc : WriteDoc)
    {p : String} (h : p ∈ st.fs) : p ∈ (write_doc st path doc).fs := by
  unfold write_doc
  dsimp only
  split
  · exact h
  · exact List.mem_cons_of_mem _ h

theorem process_library_skip (osName : String) (st : FsState) (lib : Library)
    (h : ∀ p ∈ lib_targets osName lib, p ∈ st.fs) :
    process_library osName st lib = st := by
  match hd : lib.downloads with
  | none => simp [process_library, hd]
  | some d =>
    match ha : d.artifact with
    | none =>
      match hn : get_native_for_os osName d.classifiers with
      | none => simp [process_library, hd, ha, hn]
      | some n =>
        have h2 : lib_artifact_dest n ∈ st.fs := h _ (by simp [lib_targets, hd, ha, hn])
        simp [process_library, hd, ha, hn, download_file_downloads_of_mem _ _ _ h2]
    | some a =>
      have h1 : lib_artifact_dest a ∈ st.fs := h _ (by simp [lib_targets, hd, ha])
      match hn : get_native_for_os osName d.classifiers with
      | none => simp [process_library, hd, ha, hn, download_file_downloads_of_mem _ _ _ h1]
      | some n =>
        have h2 : lib_artifact_dest n ∈ st.fs := h _ (by simp [lib_targets, hd, ha, hn])
        simp [process_library, hd, ha, hn, download_file_downloads_of_mem _ _ _ h1,
          download_file_downloads_of_mem _ _ _ h2]

theorem foldl_library_skip (osName : String) (libs : List Library) (st : FsState)
    (h : ∀ p ∈ libs.flatMap (lib_targets osName), p ∈ st.fs) :
    libs.foldl (process_library osName) st = st := by
  induction libs with
  | nil => rfl
  | cons l ls ih =>
    have hl : ∀ p ∈ lib_targets osName l, p ∈ st.fs := fun p hp =>
      h p (by rw [List.flatMap_cons]; exact List.mem_append_left _ hp)
    have hr : ∀ p ∈ ls.flatMap (lib_targets osName), p ∈ st.fs := fun p hp =>
      h p (by rw [List.flatMap_cons]; exact List.mem_append_right _ hp)
    rw [List.foldl_cons, process_library_skip _ _ _ hl, ih hr]

theorem download_client_and_libraries_full_presence (osName : String)
    (vd : VersionData) (st : FsState)
    (h : ∀ p ∈ plan_targets osName vd, p ∈ st.fs) :
    download_client_and_libraries osName vd st =
      write_doc st (version_json_path vd.id) (.versionMeta vd) := by
  have hc : client_jar_path vd.id ∈ st.fs := h _ (by simp [plan_targets])
  unfold download_client_and_libraries
  rw [download_file_downloads_of_mem _ _ _ hc]
  apply foldl_library_skip
  intro p hp
  exact write_doc_fs_mono _ _ _ (h p (by simp only [plan_targets]; exact List.mem_cons_of_mem _ hp))

theorem process_asset_skip (st : FsState) (e : String × AssetObject)
    (h : asset_target e.2.hash ∈ st.fs) : process_asset st e = st := by
  simp [process_asset, h]

theorem foldl_asset_skip (objs : List (String × AssetObject)) (st : FsState)
    (h : ∀ p ∈ asset_targets objs, p ∈ st.fs) :
    objs.foldl process_asset st = st := by
  induction objs with
  | nil => rfl
  | cons e es ih =>
    have he : asset_target e.2.hash ∈ st.fs := h _ (by simp [asset_targets])
    have hr : ∀ p ∈ asset_targets es, p ∈ st.fs := fun p hp =>
      h p (by simp only [asset_targets, List.map_cons]; exact List.mem_cons_of_mem _ hp)
    rw [List.foldl_cons, process_asset_skip _ _ he, ih hr]

theorem download_assets_full_presence (vd : VersionData)
    (objs : List (String × AssetObject)) (st : FsState)
    (h : ∀ p ∈ asset_targets objs, p ∈ st.fs) :
    (download_assets vd objs st).downloads = st.downloads := by
  match hai : vd.assetIndex with
  | none => simp [download_assets, hai]
  | some ai =>
    simp only [download_assets, hai]
    rw [foldl_asset_skip _ _ (fun p hp => write_doc_fs_mono _ _ _ (h p hp)),
      write_doc_downloads]

/-- C5: a download whose destination already exists is a no-op success (the
state is returned unchanged: nothing is fetched and nothing rewritten), and
running the whole download planning — client, libraries and assets — against
a filesystem that already contains every target artifact performs no
download at all: the fetched-downloads record is left exactly as it was. -/
theorem download_planning_idempotent (osName : String) (vd : VersionData)
    (objs : List (String × AssetObject)) (st st₂ : FsState) (url dest : String)
    (h0 : dest ∈ st₂.fs)
    (h1 : ∀ p ∈ plan_targets osName vd, p ∈ st.fs)
    (h2 : ∀ p ∈ asset_targets objs, p ∈ st.fs) :
    download_file st₂ url dest = st₂ ∧
    (download_assets vd objs
        (download_client_and_libraries osName vd st)).downloads = st.downloads := by
  refine ⟨download_file_downloads_of_mem _ _ _ h0, ?_⟩
  rw [download_client_and_libraries_full_presence osName vd st h1]
  rw [download_assets_full_presence _ _ _
    (fun p hp => write_doc_fs_mono _ _ _ (h2 p hp)), write_doc_downloads]

/-- Witness for `download_planning_idempotent` on a filesystem already
holding the client jar, the one library artifact and the one asset
object. -/
theorem download_planning_idempotent_witness :
    ("x" ∈ (FsState.mk ["x"] [] []).fs) ∧
    (∀ p ∈ plan_targets "linux"
        (VersionData.mk "1.0" "http://c"
          [⟨some ⟨some ⟨"http://a", "a.jar"⟩, []⟩⟩]
          (some ⟨"idx", "http://u"⟩) "Main"),
      p ∈ ["minecraft/versions/1.0/1.0.jar", "minecraft/libraries/a.jar",
        "minecraft/assets/objects/ab/abcd1234ef"]) ∧
    (∀ p ∈ asset_targets [("stone", (⟨"abcd1234ef"⟩ : AssetObject))],
      p ∈ ["minecraft/versions/1.0/1.0.jar", "minecraft/libraries/a.jar",
        "minecraft/assets/objects/ab/abcd1234ef"]) ∧
    (download_file ⟨["x"], [], []⟩ "u" "x" = ⟨["x"], [], []⟩ ∧
      (download_assets
        (VersionData.mk "1.0" "http://c"
          [⟨some ⟨some ⟨"http://a", "a.jar"⟩, []⟩⟩]
          (some ⟨"idx", "http://u"⟩) "Main")
        [("stone", ⟨"abcd1234ef"⟩)]
        (download_client_and_libraries "linux"
          (VersionData.mk "1.0" "http://c"
            [⟨some ⟨some ⟨"http://a", "a.jar"⟩, []⟩⟩]
            (some ⟨"idx", "http://u"⟩) "Main")
          ⟨["minecraft/versions/1.0/1.0.jar", "minecraft/libraries/a.jar",
            "minecraft/assets/objects/ab/abcd1234ef"], [], []⟩)).downloads =
      (FsState.mk ["minecraft/versions/1.0/1.0.jar", "minecraft/libraries/a.jar",
        "minecraft/assets/objects/ab/abcd1234ef"] [] []).downloads) :=
  ⟨by decide, by decide, by decide,
    download_planning_idempotent "linux" _ _ _ _ "u" "x" (by decide) (by decide) (by decide)⟩

theorem download_file_dedup (st : FsState) (url dest : String)
    (h : dedup_inv st) : dedup_inv (download_file st url dest) := by
  unfold download_file
  split
  · exact h
  · rename_i hmem
    obtain ⟨hin, hnd⟩ := h
    constructor
    · intro p hp
      rw [List.map_append] at hp
      rcases List.mem_append.mp hp with hl | hr
      · exact List.mem_cons_of_mem _ (hin p hl)
      · simp only [List.map_cons, List.map_nil, List.mem_singleton] at hr
        subst hr
        exact List.mem_cons_self _ _
    · rw [List.map_append]
      rw [List.nodup_append]
      refine ⟨hnd, by simp, ?_⟩
      intro a ha hb
      simp only [List.map_cons, List.map_nil, List.mem_singleton] at hb
      subst hb
      exact hmem (hin a ha)

theorem write_doc_dedup (st : FsState) (path : String) (doc : WriteDoc)
    (h : dedup_inv st) : dedup_inv (write_doc st path doc) := by
  obtain ⟨hin, hnd⟩ := h
  exact ⟨fun p hp => write_doc_fs_mono _ _ _ (hin p hp), hnd⟩

theorem process_asset_dedup (st : FsState) (e : String × AssetObject)
    (h : dedup_inv st) : dedup_inv (process_asset st e) := by
  unfold process_asset
  dsimp only
  split
  · exact h
  · exact download_file_dedup _ _ _ h

theorem foldl_asset_dedup (objs : List (String × AssetObject)) (st : FsState)
    (h : dedup_inv st) : dedup_inv (objs.foldl process_asset st) := by
  induction objs generalizing st with
  | nil => exact h
  | cons e es ih => exact ih _ (process_asset_dedup _ _ h)

/-- C4: asset destinations are content-addressed — the destination is a
function of the hash alone (first two hex characters as subdirectory, full
hash as filename), so two asset entries with identical hash map to the
identical destination; and for every starting state satisfying the dedup
invariant, the asset stage preserves it, so the fetched-downloads record
never holds two tasks with the same destination: identical-hash entries
collapse to at most a single download. -/
theorem asset_downloads_content_addressed (vd : VersionData)
    (objs : List (String × AssetObject)) (st : FsState) (o₁ o₂ : AssetObject)
    (hinv : dedup_inv st) (hh : o₁.hash = o₂.hash) :
    asset_target o₁.hash = asset_target o₂.hash ∧
    dedup_inv (download_assets vd objs st) ∧
    ((download_assets vd objs st).downloads.map Prod.snd).count
      (asset_target o₁.hash) ≤ 1 := by
  have hd : dedup_inv (download_assets vd objs st) := by
    match hai : vd.assetIndex with
    | none => simpa [download_assets, hai] using hinv
    | some ai =>
      simp only [download_assets, hai]
      exact foldl_asset_dedup _ _ (write_doc_dedup _ _ _ hinv)
  exact ⟨by rw [hh], hd, List.nodup_iff_count_le_one.mp hd.2 _⟩

/-- Witness for `asset_downloads_content_addressed` on an index with two
entries sharing one hash, starting from an empty filesystem. -/
theorem asset_downloads_content_addressed_witness :
    dedup_inv ⟨[], [], []⟩ ∧
    (AssetObject.mk "abcd1234ef").hash = (AssetObject.mk "abcd1234ef").hash ∧
    (asset_target (AssetObject.mk "abcd1234ef").hash
        = asset_target (AssetObject.mk "abcd1234ef").hash ∧
      dedup_inv (download_assets
        (VersionData.mk "1.0" "http://c" [] (some ⟨"idx", "http://u"⟩) "Main")
        [("stone", ⟨"abcd1234ef"⟩), ("dirt", ⟨"abcd1234ef"⟩)] ⟨[], [], []⟩) ∧
      ((download_assets
        (VersionData.mk "1.0" "http://c" [] (some ⟨"idx", "http://u"⟩) "Main")
        [("stone", ⟨"abcd1234ef"⟩), ("dirt", ⟨"abcd1234ef"⟩)]
        ⟨[], [], []⟩).downloads.map Prod.snd).count
        (asset_target (AssetObject.mk "abcd1234ef").hash) ≤ 1) :=
  ⟨⟨by simp, by simp [dedup_inv]⟩, rfl,
    asset_downloads_content_addressed _ _ _ _ _ ⟨by simp, by simp [dedup_inv]⟩ rfl⟩

end PyCraftLauncher
